import Mathlib

set_option maxRecDepth 10000

/-!
Shallow embedding of the `download` request handler of `src/tindb/app.py`:
filter validation, dynamic parameterized query construction, execution
against an abstract warehouse, and export of the tabular result.

String helpers model the Python primitives the handler uses
(`str.strip`, `str.split(",")`, `str.join`, `str.isalnum`,
`datetime.strptime(s, "%Y-%m-%d")`, `datetime.strftime("%Y-%m-%d")`)
as structurally recursive functions on `String.data`, so that every
definition evaluates inside the kernel.
-/

namespace TinDb

/-- Python ASCII whitespace, the characters removed by `str.strip()`
(tab, LF, VT, FF, CR, space). -/
def pyIsSpace (c : Char) : Bool :=
  c.toNat = 32 || (9 ≤ c.toNat && c.toNat ≤ 13)

/-- Model of Python `s.strip()`: drop leading and trailing whitespace. -/
def pyStrip (s : String) : String :=
  String.mk (((s.data.dropWhile pyIsSpace).reverse.dropWhile pyIsSpace).reverse)

/-- Auxiliary splitter over character lists, accumulating the current
(reversed) token. -/
def splitChAux (sep : Char) : List Char → List Char → List (List Char)
  | [], acc => [acc.reverse]
  | c :: cs, acc =>
    if c = sep then acc.reverse :: splitChAux sep cs []
    else splitChAux sep cs (c :: acc)

/-- Model of Python `s.split(sep)` for a one-character separator:
keeps empty tokens, and `"".split(sep) = [""]`. -/
def pySplit (sep : Char) (s : String) : List String :=
  (splitChAux sep s.data []).map String.mk

/-- Model of Python `sep.join(l)`. -/
def pyJoin (sep : String) : List String → String
  | [] => ""
  | [s] => s
  | s :: rest => s ++ sep ++ pyJoin sep rest

/-- ASCII digit test (`0` to `9`). -/
def isDigitCh (c : Char) : Bool :=
  48 ≤ c.toNat && c.toNat ≤ 57

/-- ASCII alphanumeric test, modelling Python `str.isalnum` per character
(the inputs the handler sees are ASCII). -/
def isAlnumCh (c : Char) : Bool :=
  isDigitCh c || (65 ≤ c.toNat && c.toNat ≤ 90) || (97 ≤ c.toNat && c.toNat ≤ 122)

/-- Numeric value of a list of ASCII digit characters. -/
def digitsVal (l : List Char) : Nat :=
  l.foldl (fun a c => a * 10 + (c.toNat - 48)) 0

/-- Calendar date as `datetime` carries it (year, month, day). -/
structure Date where
  year : Nat
  month : Nat
  day : Nat
deriving DecidableEq, Repr

/-- Gregorian leap-year rule used by `datetime` for day-of-month bounds. -/
def isLeap (y : Nat) : Bool :=
  (y % 4 = 0 && y % 100 ≠ 0) || y % 400 = 0

/-- Number of days in a month, as `datetime` validates it. -/
def daysInMonth (y m : Nat) : Nat :=
  if m = 2 then (if isLeap y then 29 else 28)
  else if m = 4 || m = 6 || m = 9 || m = 11 then 30
  else 31

/-- Model of `datetime.strptime(s, "%Y-%m-%d")`: the year is exactly four
digits, month and day are one or two digits within range (CPython parses
`%m` and `%d` with one or two digits), and the `datetime` constructor
additionally requires `1 <= year` and the day to fit the month. Returns
`none` exactly when the bare `except` in the source would catch. -/
def strptimeYmd (s : String) : Option Date :=
  match pySplit '-' s with
  | [ys, ms, ds] =>
    if ys.data.length = 4 && ys.data.all isDigitCh
        && (ms.data.length = 1 || ms.data.length = 2) && ms.data.all isDigitCh
        && (ds.data.length = 1 || ds.data.length = 2) && ds.data.all isDigitCh then
      let y := digitsVal ys.data
      let m := digitsVal ms.data
      let d := digitsVal ds.data
      if 1 ≤ y && 1 ≤ m && m ≤ 12 && 1 ≤ d && d ≤ 31 && d ≤ daysInMonth y m then
        some ⟨y, m, d⟩
      else none
    else none
  | _ => none

/-- Character for a single decimal digit. -/
def digitCh (n : Nat) : Char :=
  match n with
  | 0 => '0' | 1 => '1' | 2 => '2' | 3 => '3' | 4 => '4'
  | 5 => '5' | 6 => '6' | 7 => '7' | 8 => '8' | _ => '9'

/-- Two-digit zero-padded rendering (`%m`, `%d`). -/
def pad2 (n : Nat) : String :=
  String.mk [digitCh (n / 10 % 10), digitCh (n % 10)]

/-- Four-digit zero-padded rendering (`%Y` for years up to 9999, which
the four-digit parse guarantees). -/
def pad4 (n : Nat) : String :=
  String.mk [digitCh (n / 1000 % 10), digitCh (n / 100 % 10),
             digitCh (n / 10 % 10), digitCh (n % 10)]

/-- Model of `d.strftime("%Y-%m-%d")`. -/
def formatYmd (d : Date) : String :=
  pad4 d.year ++ "-" ++ pad2 d.month ++ "-" ++ pad2 d.day

/-! Data model of the pipeline. -/

/-- Raw form fields of one request, as `request.form.get(name, "")`
delivers them (absent fields are the empty string). -/
structure RawForm where
  fe_tin : String
  end_date : String
  start_date : String
  npi : String
deriving DecidableEq, Repr

/-- Validated filter criteria (the FilterSet of the spec). -/
structure FilterSet where
  tins : List String
  endDate : Date
  startDate : Date
  npi : Option String
deriving DecidableEq, Repr

/-- Column metadata plus row data as the warehouse returns them
(cell values abstracted as strings). -/
structure TabularResult where
  cols : List String
  rows : List (List String)
deriving DecidableEq, Repr

/-- Observable outcome of the handler: a plain-text response with an HTTP
status, or a spreadsheet attachment (filename, sheet name, header row,
data rows) as `send_file` returns it. -/
inductive Response where
  | err (status : Nat) (body : String)
  | file (filename : String) (sheet : String) (header : List String)
      (rows : List (List String))
deriving DecidableEq, Repr

/-! Validation steps, in the order the handler performs them. -/

/-- Error body for an empty TIN list. -/
def missingTinResp : Response := .err 400 "TIN is required."

/-- Error body naming a TIN of the wrong length. -/
def badTinResp (t : String) : Response :=
  .err 400 ("TIN \x27" ++ t ++ "\x27 must be 9 characters (letters/numbers allowed).")

/-- Error body for an unparsable end date. -/
def badEndResp : Response := .err 400 "End Date must be in yyyy-mm-dd format."

/-- Error body for an unparsable start date. -/
def badStartResp : Response := .err 400 "Start Date must be in yyyy-mm-dd format."

/-- Error body for a malformed NPI. -/
def badNpiResp : Response := .err 400 "NPI must be exactly 10 alphanumeric characters."

/-- Model of `[t.strip() for t in fe_tin_raw.split(",") if t.strip()]`. -/
def tinsOf (raw : String) : List String :=
  ((pySplit ',' raw).map pyStrip).filter (fun t => !t.data.isEmpty)

/-- TIN validation: empty list rejected, then the first token whose length
is not 9 is rejected by name; otherwise the token list is accepted. -/
def tinStep (raw : String) : Except Response (List String) :=
  if (tinsOf raw).isEmpty then .error missingTinResp
  else
    match (tinsOf raw).find? (fun t => t.data.length ≠ 9) with
    | some t => .error (badTinResp t)
    | none => .ok (tinsOf raw)

/-- Start-date step: an empty field defaults to `today`
(`datetime.today()`), a non-empty field must parse as `%Y-%m-%d`. -/
def startStep (today : Date) (s : String) : Except Response Date :=
  if s.data.isEmpty then .ok today
  else
    match strptimeYmd s with
    | none => .error badStartResp
    | some d => .ok d

/-- NPI step: an empty field means no NPI filter; a non-empty field is
accepted only with `len(npi) == 10` and `npi.isalnum()`. -/
def npiStep (npi : String) : Except Response (Option String) :=
  if npi.data.isEmpty then .ok none
  else if npi.data.length ≠ 10 || !npi.data.all isAlnumCh then .error badNpiResp
  else .ok (some npi)

/-- Full validation phase of the handler, strictly in source order:
TIN list, end date, start date, NPI. The first failure wins. -/
def validateForm (today : Date) (form : RawForm) : Except Response FilterSet :=
  match tinStep (pyStrip form.fe_tin) with
  | .error r => .error r
  | .ok tins =>
    match strptimeYmd (pyStrip form.end_date) with
    | none => .error badEndResp
    | some endD =>
      match startStep today (pyStrip form.start_date) with
      | .error r => .error r
      | .ok startD =>
        match npiStep (pyStrip form.npi) with
        | .error r => .error r
        | .ok npiOpt => .ok ⟨tins, endD, startD, npiOpt⟩

/-! Query construction, mirroring the f-strings of the source with the
`TERADATA_DB` configuration value substituted. -/

/-- Database name from the module-level configuration. -/
def teradataDb : String := "tin_db"

/-- Model of `",".join(["?"] * n)`. -/
def placeholdersOf (n : Nat) : String := pyJoin "," (List.replicate n "?")

/-- The `base_cte` f-string. -/
def baseCte : String :=
  "\n        WITH abc AS\n        (\n            SELECT *\n            FROM "
    ++ teradataDb ++
    ".records\n            WHERE end_date >= ?\n              AND start_date <= ?\n        )\n        "

/-- The `final_where` string, with the NPI clause appended when the NPI
filter is enabled (`npi_placeholders` is built from the one-element
`npi_list`). -/
def finalWhere (useNpi : Bool) : String :=
  "\n        WHERE x.end_date >= ?\n          AND x.start_date <= ?\n        "
    ++ (if useNpi then " AND (x.npi IN (" ++ placeholdersOf 1 ++ "))" else "")

/-- The complete query text for `n` TINs, with or without the NPI clause. -/
def buildQuery (n : Nat) (useNpi : Bool) : String :=
  baseCte
    ++ "\n        SELECT *\n        FROM\n        (\n            SELECT * FROM abc WHERE tin IN ("
    ++ placeholdersOf n
    ++ ")\n        ) x\n        "
    ++ finalWhere useNpi
    ++ "\n        "

/-- The ordered parameter list of the source: CTE dates, the TIN list,
the final-filter dates again, then the one-element NPI list if enabled. -/
def buildParams (endDate startDate : String) (tins : List String)
    (npi : Option String) : List String :=
  [endDate, startDate] ++ tins ++ [endDate, startDate] ++
    (match npi with
     | some v => [v]
     | none => [])

/-- Query text the handler builds for a validated FilterSet. -/
def queryOf (fs : FilterSet) : String :=
  buildQuery fs.tins.length fs.npi.isSome

/-- Parameter list the handler binds for a validated FilterSet. -/
def paramsOf (fs : FilterSet) : List String :=
  buildParams (formatYmd fs.endDate) (formatYmd fs.startDate) fs.tins fs.npi

/-! The handler itself, with the warehouse abstracted as a function from
query text and bound parameters to a TabularResult. -/

/-- The `download` handler: validate, build, execute against `db`, then
either the 404 empty-result response or the spreadsheet attachment named
from the end date. -/
def downloadWith (db : String → List String → TabularResult) (today : Date)
    (form : RawForm) : Response :=
  match validateForm today form with
  | .error r => r
  | .ok fs =>
    let res := db (queryOf fs) (paramsOf fs)
    if res.rows.isEmpty then .err 404 "No records found."
    else
      .file ("tin_report_" ++ formatYmd fs.endDate ++ ".xlsx") "Report"
        res.cols res.rows

/-- Number of positional placeholders in a query text. -/
def countQ (s : String) : Nat := s.data.count '?'

/-- Substring test used to state the filename claims. -/
def startsWithList : List Char → List Char → Bool
  | [], _ => true
  | _ :: _, [] => false
  | p :: ps, c :: cs => p = c && startsWithList ps cs

/-- Occurrence of `pat` at some position of the list. -/
def containsAux (pat : List Char) : List Char → Bool
  | [] => startsWithList pat []
  | c :: rest => startsWithList pat (c :: rest) || containsAux pat rest

/-- Whether `pat` occurs as a contiguous substring of `s`. -/
def containsStr (s pat : String) : Bool :=
  containsAux pat.data s.data

/-- Decidable equality of validation-step results, needed to evaluate
the steps on concrete inputs. -/
instance {α β : Type} [DecidableEq α] [DecidableEq β] :
    DecidableEq (Except α β) := fun a b =>
  match a, b with
  | .ok x, .ok y =>
    if h : x = y then .isTrue (by rw [h])
    else .isFalse (by intro hc; cases hc; exact h rfl)
  | .error x, .error y =>
    if h : x = y then .isTrue (by rw [h])
    else .isFalse (by intro hc; cases hc; exact h rfl)
  | .ok _, .error _ => .isFalse (by intro hc; cases hc)
  | .error _, .ok _ => .isFalse (by intro hc; cases hc)

/-! Counting lemmas for the placeholder invariant. -/

/-- Appending strings concatenates their character data. -/
lemma data_append (s t : String) : (s ++ t).data = s.data ++ t.data := by
  cases s; cases t; rfl

/-- Placeholder counting distributes over string append. -/
lemma countQ_append (s t : String) : countQ (s ++ t) = countQ s + countQ t := by
  unfold countQ
  rw [data_append, List.count_append]

/-- The joined placeholder string for `n` identifiers holds exactly `n`
question marks. -/
lemma countQ_placeholdersOf : ∀ n, countQ (placeholdersOf n) = n
  | 0 => rfl
  | 1 => rfl
  | n + 2 => by
    have ih : countQ (placeholdersOf (n + 1)) = n + 1 := countQ_placeholdersOf (n + 1)
    have h1 : placeholdersOf (n + 2)
        = "?" ++ "," ++ pyJoin "," ("?" :: List.replicate n "?") := rfl
    have h2 : placeholdersOf (n + 1) = pyJoin "," ("?" :: List.replicate n "?") := by
      unfold placeholdersOf
      rw [List.replicate_succ]
    rw [h1, countQ_append, countQ_append, ← h2, ih,
      show countQ "?" = 1 from rfl, show countQ "," = 0 from rfl]
    omega

/-- The full query text holds `n + 4` placeholders, plus one more when
the NPI clause is enabled. -/
lemma countQ_buildQuery (n : Nat) (u : Bool) :
    countQ (buildQuery n u) = n + 4 + (if u then 1 else 0) := by
  have h1 : countQ baseCte = 2 := by decide
  have h2 : countQ "\n        SELECT *\n        FROM\n        (\n            SELECT * FROM abc WHERE tin IN (" = 0 := by decide
  have h3 : countQ ")\n        ) x\n        " = 0 := by decide
  have h4 : countQ (finalWhere u) = 2 + (if u then 1 else 0) := by
    cases u <;> decide
  have h5 : countQ "\n        " = 0 := by decide
  unfold buildQuery
  simp only [countQ_append]
  rw [h1, h2, h3, h4, h5, countQ_placeholdersOf]
  omega

/-! Behaviour of the TIN validation step. -/

/-- A non-empty list is not `isEmpty`. -/
lemma isEmpty_ne_true {l : List String} (h : l ≠ []) : ¬(l.isEmpty = true) := by
  simp [List.isEmpty_iff, h]

/-- An empty token list is rejected with the missing-TIN error. -/
lemma tinStep_missing {raw : String} (h : tinsOf raw = []) :
    tinStep raw = .error missingTinResp := by
  simp [tinStep, h]

/-- A token list holding a token of the wrong length is rejected with the
bad-TIN error naming an offending token (the first one found). -/
lemma tinStep_bad {raw : String} (h : ∃ t ∈ tinsOf raw, t.data.length ≠ 9) :
    ∃ u ∈ tinsOf raw, u.data.length ≠ 9 ∧ tinStep raw = .error (badTinResp u) := by
  obtain ⟨t, ht, hlen⟩ := h
  have hne : tinsOf raw ≠ [] := by
    intro he; rw [he] at ht; exact absurd ht (List.not_mem_nil t)
  have hsome : ((tinsOf raw).find? (fun t => t.data.length ≠ 9)).isSome := by
    rw [List.find?_isSome]
    exact ⟨t, ht, by simpa using hlen⟩
  obtain ⟨u, hu⟩ := Option.isSome_iff_exists.mp hsome
  refine ⟨u, List.mem_of_find?_eq_some hu, ?_, ?_⟩
  · have := List.find?_some hu
    simpa using this
  · unfold tinStep
    rw [if_neg (isEmpty_ne_true hne), hu]

/-- A non-empty token list whose tokens all have exactly 9 characters is
accepted unchanged. -/
lemma tinStep_ok {raw : String} (hne : tinsOf raw ≠ [])
    (hall : ∀ t ∈ tinsOf raw, t.data.length = 9) :
    tinStep raw = .ok (tinsOf raw) := by
  have hnone : (tinsOf raw).find? (fun t => t.data.length ≠ 9) = none := by
    rw [List.find?_eq_none]
    intro t ht
    simpa using hall t ht
  unfold tinStep
  rw [if_neg (isEmpty_ne_true hne), hnone]

/-! Every validation failure carries HTTP status 400, and the handler
returns it without consulting the warehouse. -/

/-- TIN-step failures are 400 responses. -/
lemma tinStep_error_msg {raw : String} {r : Response}
    (h : tinStep raw = .error r) : ∃ msg, r = .err 400 msg := by
  unfold tinStep at h
  split at h
  · exact ⟨"TIN is required.", by injection h with h2; rw [← h2]; rfl⟩
  · split at h
    · next t _ => exact ⟨_, by injection h with h2; rw [← h2]; rfl⟩
    · cases h

/-- Start-date failures are 400 responses. -/
lemma startStep_error_msg {today : Date} {s : String} {r : Response}
    (h : startStep today s = .error r) : ∃ msg, r = .err 400 msg := by
  unfold startStep at h
  split at h
  · cases h
  · split at h
    · exact ⟨_, by injection h with h2; rw [← h2]; rfl⟩
    · cases h

/-- NPI failures are 400 responses. -/
lemma npiStep_error_msg {s : String} {r : Response}
    (h : npiStep s = .error r) : ∃ msg, r = .err 400 msg := by
  unfold npiStep at h
  split at h
  · cases h
  · split at h
    · exact ⟨_, by injection h with h2; rw [← h2]; rfl⟩
    · cases h

/-- Any failure of the validation phase is a 400 response. -/
lemma validateForm_error_msg {today : Date} {form : RawForm} {r : Response}
    (h : validateForm today form = .error r) : ∃ msg, r = .err 400 msg := by
  unfold validateForm at h
  split at h
  · next heq => injection h with h2; exact h2 ▸ tinStep_error_msg heq
  · split at h
    · exact ⟨_, by injection h with h2; rw [← h2]; rfl⟩
    · split at h
      · next heq => injection h with h2; exact h2 ▸ startStep_error_msg heq
      · split at h
        · next heq => injection h with h2; exact h2 ▸ npiStep_error_msg heq
        · cases h

/-- When validation fails, the handler returns the validation response
directly, for any warehouse whatsoever. -/
lemma downloadWith_of_error (db : String → List String → TabularResult)
    {today : Date} {form : RawForm} {r : Response}
    (h : validateForm today form = .error r) :
    downloadWith db today form = r := by
  unfold downloadWith
  rw [h]

/-! Behaviour of the handler after successful validation. -/

/-- When validation succeeds, the handler executes the built query with
the built parameters and answers 404 on an empty result, otherwise the
spreadsheet attachment named from the end date. -/
lemma downloadWith_of_ok (db : String → List String → TabularResult)
    {today : Date} {form : RawForm} {fs : FilterSet}
    (h : validateForm today form = .ok fs) :
    downloadWith db today form =
      if (db (queryOf fs) (paramsOf fs)).rows.isEmpty then
        .err 404 "No records found."
      else
        .file ("tin_report_" ++ formatYmd fs.endDate ++ ".xlsx") "Report"
          (db (queryOf fs) (paramsOf fs)).cols (db (queryOf fs) (paramsOf fs)).rows := by
  unfold downloadWith
  rw [h]

/-- A successfully validated FilterSet is exactly what the four steps
produced, in source order. -/
lemma validateForm_ok_inv {today : Date} {form : RawForm} {fs : FilterSet}
    (h : validateForm today form = .ok fs) :
    tinStep (pyStrip form.fe_tin) = .ok fs.tins
    ∧ strptimeYmd (pyStrip form.end_date) = some fs.endDate
    ∧ startStep today (pyStrip form.start_date) = .ok fs.startDate
    ∧ npiStep (pyStrip form.npi) = .ok fs.npi := by
  unfold validateForm at h
  split at h
  · cases h
  next tins heqt =>
  split at h
  · cases h
  next endD heqe =>
  split at h
  · cases h
  next startD heqs =>
  split at h
  · cases h
  next npiOpt heqn =>
  injection h with h2
  subst h2
  exact ⟨heqt, heqe, heqs, heqn⟩

/-- A non-empty start-date field that parses is used as parsed. -/
lemma startStep_parse {today : Date} {s : String} {d : Date}
    (h : strptimeYmd s = some d) : startStep today s = .ok d := by
  unfold startStep
  by_cases he : s.data.isEmpty = true
  · have hs : s = "" := by
      cases s with
      | mk l =>
        cases l with
        | nil => rfl
        | cons a as => simp at he
    rw [hs] at h
    have hn : strptimeYmd "" = none := rfl
    rw [hn] at h
    cases h
  · rw [if_neg he, h]

/-- A non-empty NPI field is accepted exactly when it has 10 characters,
all alphanumeric; any other non-empty field draws the bad-NPI error. -/
lemma npiStep_spec {s : String} (hne : s ≠ "") :
    ((npiStep s = .ok (some s)) ↔ (s.data.length = 10 ∧ s.data.all isAlnumCh = true))
    ∧ (¬(s.data.length = 10 ∧ s.data.all isAlnumCh = true) →
        npiStep s = .error badNpiResp) := by
  have hd : ¬(s.data.isEmpty = true) := by
    cases s with
    | mk l =>
      cases l with
      | nil => exact absurd rfl hne
      | cons a as => simp
  unfold npiStep
  rw [if_neg hd]
  split_ifs with hcond
  · simp only [decide_not, Bool.or_eq_true, Bool.not_eq_true', decide_eq_false_iff_not,
      Bool.not_eq_true] at hcond
    constructor
    · constructor
      · intro hx; cases hx
      · intro hgood
        rcases hcond with h1 | h2
        · exact absurd hgood.1 h1
        · rw [hgood.2] at h2; cases h2
    · intro _; rfl
  · simp only [decide_not, Bool.or_eq_true, Bool.not_eq_true', decide_eq_false_iff_not,
      Bool.not_eq_true, not_or] at hcond
    have h1 : s.data.length = 10 := not_not.mp hcond.1
    have h2 : s.data.all isAlnumCh = true := by
      cases hall : s.data.all isAlnumCh
      · exact absurd hall hcond.2
      · rfl
    constructor
    · exact ⟨fun _ => ⟨h1, h2⟩, fun _ => rfl⟩
    · intro hbad; exact absurd ⟨h1, h2⟩ hbad

/-! Concrete fixtures for the end-to-end scenarios of the spec. -/

/-- Fixed wall-clock date standing in for `datetime.today()`. -/
def todayFixed : Date := ⟨2024, 5, 15⟩

/-- Scenario A input: one TIN, an end date, no start date, no NPI. -/
def formA : RawForm := ⟨"123456789", "2024-06-01", "", ""⟩

/-- Scenario C input: two TINs and an NPI (with a concrete start date so
the scenario is reproducible). -/
def formC : RawForm := ⟨"111111111,222222222", "2024-06-01", "2024-01-01", "NPI0000001"⟩

/-- FilterSet that validation produces from scenario A under `todayFixed`. -/
def fsA : FilterSet := ⟨["123456789"], ⟨2024, 6, 1⟩, ⟨2024, 5, 15⟩, none⟩

/-- FilterSet that validation produces from scenario C. -/
def scenarioC : FilterSet :=
  ⟨["111111111", "222222222"], ⟨2024, 6, 1⟩, ⟨2024, 1, 1⟩, some "NPI0000001"⟩

/-- Warehouse stub returning zero rows. -/
def dbEmpty : String → List String → TabularResult := fun _ _ => ⟨["tin", "npi"], []⟩

/-- Warehouse stub returning three rows. -/
def dbThree : String → List String → TabularResult :=
  fun _ _ => ⟨["tin", "npi"], [["1", "2"], ["3", "4"], ["5", "6"]]⟩

/-- C1: for every FilterSet with a non-empty TIN list, with or without an
NPI, the query text built by the pipeline holds exactly as many positional
placeholders as the parameter list it binds. -/
theorem C1_placeholder_count_matches_params (fs : FilterSet) (_h : fs.tins ≠ []) :
    countQ (queryOf fs) = (paramsOf fs).length := by
  unfold queryOf paramsOf buildParams
  rw [countQ_buildQuery]
  cases hn : fs.npi <;> simp [hn, List.length_append]

/-- Witness for C1 at the scenario-A FilterSet. -/
theorem C1_witness :
    countQ (queryOf fsA) = (paramsOf fsA).length :=
  C1_placeholder_count_matches_params fsA (by decide)

/-- C2 counterexample: in scenario C the handler binds 7 parameters to 7
placeholders, not the 5 the claim states, and the parameter list is not
`[endDate, startDate, tin1, tin2, npi]`. -/
theorem C2_counterexample :
    (paramsOf scenarioC).length ≠ 5
    ∧ countQ (queryOf scenarioC) ≠ 5
    ∧ paramsOf scenarioC
      ≠ ["2024-06-01", "2024-01-01", "111111111", "222222222", "NPI0000001"] :=
  ⟨by decide, by decide, by decide⟩

/-- C2 amended: the ordered parameter list is
`[endDate, startDate, tin1, …, tinN, endDate, startDate, (npi)]` — the two
dates are bound twice, once for the CTE and once for the outer filter — so
scenario C yields 7 placeholders and 7 parameters in that order. -/
theorem C2_param_order_repeats_dates :
    (∀ fs : FilterSet,
      paramsOf fs = [formatYmd fs.endDate, formatYmd fs.startDate] ++ fs.tins
        ++ [formatYmd fs.endDate, formatYmd fs.startDate] ++ fs.npi.toList)
    ∧ validateForm todayFixed formC = .ok scenarioC
    ∧ paramsOf scenarioC
      = ["2024-06-01", "2024-01-01", "111111111", "222222222",
         "2024-06-01", "2024-01-01", "NPI0000001"]
    ∧ countQ (queryOf scenarioC) = 7
    ∧ (paramsOf scenarioC).length = 7 := by
  refine ⟨fun fs => ?_, by decide, by decide, by decide, by decide⟩
  cases h : fs.npi <;> simp [paramsOf, buildParams, h]

/-- C3: the TIN field is split on commas, tokens trimmed and empties
dropped; an empty result is the missing-TIN error, a token of length other
than 9 draws the bad-TIN error naming an offending token, and a non-empty
list of 9-character tokens is accepted. -/
theorem C3_tin_validation (raw : String) :
    (tinsOf raw = [] → tinStep raw = .error missingTinResp)
    ∧ ((∃ t ∈ tinsOf raw, t.data.length ≠ 9) →
        ∃ u ∈ tinsOf raw, u.data.length ≠ 9 ∧ tinStep raw = .error (badTinResp u))
    ∧ (tinsOf raw ≠ [] → (∀ t ∈ tinsOf raw, t.data.length = 9) →
        tinStep raw = .ok (tinsOf raw)) :=
  ⟨tinStep_missing, tinStep_bad, tinStep_ok⟩

/-- Witness for C3: the empty and all-whitespace fields give missing-TIN,
lengths 8 and 10 give bad-TIN, and length 9 is accepted. -/
theorem C3_witness :
    tinStep "" = .error missingTinResp
    ∧ tinStep " , " = .error missingTinResp
    ∧ (∃ u ∈ tinsOf "12345678", u.data.length ≠ 9
        ∧ tinStep "12345678" = .error (badTinResp u))
    ∧ (∃ u ∈ tinsOf "1234567890", u.data.length ≠ 9
        ∧ tinStep "1234567890" = .error (badTinResp u))
    ∧ tinStep "123456789" = .ok ["123456789"] :=
  ⟨(C3_tin_validation "").1 (by decide), (C3_tin_validation " , ").1 (by decide),
   (C3_tin_validation "12345678").2.1 ⟨"12345678", by decide, by decide⟩,
   (C3_tin_validation "1234567890").2.1 ⟨"1234567890", by decide, by decide⟩,
   (C3_tin_validation "123456789").2.2 (by decide) (by decide)⟩

/-- C4 counterexample: the example string `ABC123456` the claim lists as
accepted has 9 characters, so the handler rejects it with the bad-NPI
error, standalone and through the full validation phase. -/
theorem C4_counterexample :
    "ABC123456".data.length = 9
    ∧ npiStep "ABC123456" = .error badNpiResp
    ∧ validateForm todayFixed ⟨"123456789", "2024-06-01", "2024-01-01", "ABC123456"⟩
      = .error badNpiResp :=
  ⟨by decide, by decide, by decide⟩

/-- C4 amended: a present NPI is accepted exactly when it has 10
characters, all alphanumeric, and otherwise draws the bad-NPI error; the
10-character `ABC1234567` is accepted while `ABC12345`, `ABC123456!` and
the 9-character `ABC123456` are rejected. -/
theorem C4_npi_validation :
    (∀ s : String, s ≠ "" →
      ((npiStep s = .ok (some s)) ↔ (s.data.length = 10 ∧ s.data.all isAlnumCh = true))
      ∧ (¬(s.data.length = 10 ∧ s.data.all isAlnumCh = true) →
          npiStep s = .error badNpiResp))
    ∧ npiStep "ABC1234567" = .ok (some "ABC1234567")
    ∧ npiStep "ABC12345" = .error badNpiResp
    ∧ npiStep "ABC123456!" = .error badNpiResp
    ∧ npiStep "ABC123456" = .error badNpiResp :=
  ⟨fun _ hne => npiStep_spec hne, by decide, by decide, by decide, by decide⟩

/-- Witness for C4 at a concrete 10-character alphanumeric NPI. -/
theorem C4_witness :
    npiStep "NPI0000001" = .ok (some "NPI0000001") :=
  ((C4_npi_validation.1 "NPI0000001" (by decide)).1).mpr (by decide)

/-- C5: every validation failure is a 400 response, and the handler
returns it identically for every warehouse — no warehouse interaction can
influence or be caused by a failed request. -/
theorem C5_validation_short_circuits :
    ∀ (today : Date) (form : RawForm) (r : Response),
      validateForm today form = .error r →
      (∃ msg, r = .err 400 msg) ∧ ∀ db, downloadWith db today form = r :=
  fun _ _ _ h => ⟨validateForm_error_msg h, fun db => downloadWith_of_error db h⟩

/-- Witness for C5 at a missing-TIN request against a concrete warehouse. -/
theorem C5_witness :
    downloadWith dbThree todayFixed ⟨"", "2024-06-01", "", ""⟩
      = .err 400 "TIN is required." :=
  (C5_validation_short_circuits todayFixed ⟨"", "2024-06-01", "", ""⟩ missingTinResp
    (by decide)).2 dbThree

/-- C6: with validation passed, a zero-row result yields the 404 plain
response and no spreadsheet, while a non-empty result yields the
spreadsheet attachment. -/
theorem C6_empty_result_404 :
    ∀ (db : String → List String → TabularResult) (today : Date) (form : RawForm)
      (fs : FilterSet), validateForm today form = .ok fs →
      ((db (queryOf fs) (paramsOf fs)).rows = [] →
        downloadWith db today form = .err 404 "No records found.")
      ∧ ((db (queryOf fs) (paramsOf fs)).rows ≠ [] →
        downloadWith db today form
          = .file ("tin_report_" ++ formatYmd fs.endDate ++ ".xlsx") "Report"
              (db (queryOf fs) (paramsOf fs)).cols (db (queryOf fs) (paramsOf fs)).rows) := by
  intro db today form fs h
  rw [downloadWith_of_ok db h]
  constructor
  · intro he
    rw [if_pos (List.isEmpty_iff.mpr he)]
  · intro hne
    rw [if_neg (by simpa [List.isEmpty_iff] using hne)]

/-- Witness for C6 with empty and three-row warehouses on scenario A. -/
theorem C6_witness :
    downloadWith dbEmpty todayFixed formA = .err 404 "No records found."
    ∧ downloadWith dbThree todayFixed formA
      = .file "tin_report_2024-06-01.xlsx" "Report" ["tin", "npi"]
          [["1", "2"], ["3", "4"], ["5", "6"]] :=
  ⟨(C6_empty_result_404 dbEmpty todayFixed formA fsA (by decide)).1 (by decide),
   (C6_empty_result_404 dbThree todayFixed formA fsA (by decide)).2 (by decide)⟩

/-- C7 counterexample: in scenario A the returned filename is
`tin_report_2024-06-01.xlsx`, which contains the end date but not the
substring `123456789` the claim requires. -/
theorem C7_counterexample :
    downloadWith dbThree todayFixed formA
      = .file "tin_report_2024-06-01.xlsx" "Report" ["tin", "npi"]
          [["1", "2"], ["3", "4"], ["5", "6"]]
    ∧ containsStr "tin_report_2024-06-01.xlsx" "123456789" = false
    ∧ containsStr "tin_report_2024-06-01.xlsx" "2024-06-01" = true :=
  ⟨by decide, by decide, by decide⟩

/-- C7 amended: the filename is derived deterministically from the end
date alone as `tin_report_<endDate>.xlsx`; in scenario A it contains
`2024-06-01` but not `123456789`. -/
theorem C7_filename_from_end_date_only :
    (∀ (db : String → List String → TabularResult) (today : Date) (form : RawForm)
      (fs : FilterSet), validateForm today form = .ok fs →
      (db (queryOf fs) (paramsOf fs)).rows ≠ [] →
      downloadWith db today form
        = .file ("tin_report_" ++ formatYmd fs.endDate ++ ".xlsx") "Report"
            (db (queryOf fs) (paramsOf fs)).cols (db (queryOf fs) (paramsOf fs)).rows)
    ∧ containsStr "tin_report_2024-06-01.xlsx" "2024-06-01" = true
    ∧ containsStr "tin_report_2024-06-01.xlsx" "123456789" = false := by
  refine ⟨fun db today form fs h hne => ?_, by decide, by decide⟩
  rw [downloadWith_of_ok db h, if_neg (by simpa [List.isEmpty_iff] using hne)]

/-- Witness for C7 on scenario A with the three-row warehouse. -/
theorem C7_witness :
    downloadWith dbThree todayFixed formA
      = .file ("tin_report_" ++ formatYmd fsA.endDate ++ ".xlsx") "Report"
          (dbThree (queryOf fsA) (paramsOf fsA)).cols
          (dbThree (queryOf fsA) (paramsOf fsA)).rows :=
  C7_filename_from_end_date_only.1 dbThree todayFixed formA fsA (by decide) (by decide)

/-- C8: when the start-date field is empty the validated start date is the
wall-clock date `today`; when present and parsable it is used as parsed;
and the value bound at position 1 of the parameter list is that date
formatted as `YYYY-MM-DD`. -/
theorem C8_start_date_default :
    ∀ (today : Date) (form : RawForm) (fs : FilterSet),
      validateForm today form = .ok fs →
      (pyStrip form.start_date = "" → fs.startDate = today)
      ∧ (∀ d, strptimeYmd (pyStrip form.start_date) = some d → fs.startDate = d)
      ∧ (paramsOf fs)[1]? = some (formatYmd fs.startDate) := by
  intro today form fs h
  have hs := (validateForm_ok_inv h).2.2.1
  refine ⟨?_, ?_, ?_⟩
  · intro he
    rw [he] at hs
    have h0 : (Except.ok today : Except Response Date) = .ok fs.startDate := hs
    injection h0 with h1
    exact h1.symm
  · intro d hd
    rw [startStep_parse hd] at hs
    injection hs with h1
    exact h1.symm
  · cases hn : fs.npi <;> simp [paramsOf, buildParams, hn]

/-- Witness for C8: scenario A defaults to `todayFixed`, scenario C uses
its supplied start date. -/
theorem C8_witness :
    fsA.startDate = todayFixed ∧ scenarioC.startDate = (⟨2024, 1, 1⟩ : Date) :=
  ⟨(C8_start_date_default todayFixed formA fsA (by decide)).1 (by decide),
   (C8_start_date_default todayFixed formC scenarioC (by decide)).2.1 ⟨2024, 1, 1⟩
     (by decide)⟩

/-- C10: TIN validation enforces only the length 9 — every non-empty list
of trimmed 9-character tokens is accepted whatever the characters, as the
all-letters, embedded-dash and all-punctuation examples show. -/
theorem C10_length_only_tin_validation :
    (∀ raw : String, tinsOf raw ≠ [] → (∀ t ∈ tinsOf raw, t.data.length = 9) →
      tinStep raw = .ok (tinsOf raw))
    ∧ tinStep "ABCDEFGHI" = .ok ["ABCDEFGHI"]
    ∧ tinStep "12345-789" = .ok ["12345-789"]
    ∧ tinStep "!!!!!!!!!" = .ok ["!!!!!!!!!"] :=
  ⟨fun _ => tinStep_ok, by decide, by decide, by decide⟩

/-- Witness for C10 at a 9-character token with punctuation characters. -/
theorem C10_witness :
    tinStep "12@45#789" = .ok ["12@45#789"] :=
  C10_length_only_tin_validation.1 "12@45#789" (by decide) (by decide)

end TinDb
